import Mathlib

/-!
Verification of the tiny-result library: a two-variant Result type
(core.ts) together with its conversion and aggregation helpers
(utility.ts).  Classes Ok and Err are embedded as the two constructors
of an inductive type; the readonly discriminant fields and the methods
become functions on that type.  A method that throws is embedded as a
function into Except String, the error message reproducing the thrown
message text.
-/

/-- Embeds the discriminated union Result of core.ts: class Ok holding one
value and class Err holding one error. -/
inductive Result (T E : Type) where
  | Ok (value : T) : Result T E
  | Err (error : E) : Result T E
deriving DecidableEq

/-- Embeds the readonly field access r.ok: the field is declared true on
class Ok and false on class Err. -/
def Result.ok {T E : Type} : Result T E → Bool
  | .Ok _ => true
  | .Err _ => false

/-- Embeds the readonly field access r.err: the field is declared false on
class Ok and true on class Err. -/
def Result.err {T E : Type} : Result T E → Bool
  | .Ok _ => false
  | .Err _ => true

/-- Embeds the map method: Ok.map returns new Ok(fn(this.value)); Err.map
returns this, ignoring fn. -/
def Result.map {T U E : Type} (fn : T → U) : Result T E → Result U E
  | .Ok v => .Ok (fn v)
  | .Err e => .Err e

/-- Embeds the mapErr method: Ok.mapErr returns this, ignoring fn;
Err.mapErr returns new Err(fn(this.error)). -/
def Result.mapErr {T E F : Type} (fn : E → F) : Result T E → Result T F
  | .Ok v => .Ok v
  | .Err e => .Err (fn e)

/-- Embeds the andThen method: Ok.andThen returns fn(this.value) directly;
Err.andThen returns this, ignoring fn. -/
def Result.andThen {T U E : Type} (fn : T → Result U E) : Result T E → Result U E
  | .Ok v => fn v
  | .Err e => .Err e

/-- Embeds the unwrap method: Ok.unwrap returns this.value; Err.unwrap
throws new Error with message built from the template literal
`Called unwrap on Err: ` followed by the stringified error.  The host
stringification of the payload is passed in as toStr. -/
def Result.unwrap {T E : Type} (toStr : E → String) : Result T E → Except String T
  | .Ok v => .ok v
  | .Err e => .error ("Called unwrap on Err: " ++ toStr e)

/-- Embeds the unwrapOr method: Ok.unwrapOr returns this.value, ignoring
the default; Err.unwrapOr returns defaultValue. -/
def Result.unwrapOr {T E : Type} (defaultValue : T) : Result T E → T
  | .Ok v => v
  | .Err _ => defaultValue

/-- Embeds the unwrapErr method: Ok.unwrapErr throws new Error with the
message text written in core.ts; Err.unwrapErr returns this.error. -/
def Result.unwrapErr {T E : Type} : Result T E → Except String E
  | .Ok _ => .error "Called unwrapErr on Ok"
  | .Err e => .ok e

/-- Embeds the isOk method: returns true on class Ok, false on class Err. -/
def Result.isOk {T E : Type} : Result T E → Bool
  | .Ok _ => true
  | .Err _ => false

/-- Embeds the isErr method: returns false on class Ok, true on class Err. -/
def Result.isErr {T E : Type} : Result T E → Bool
  | .Ok _ => false
  | .Err _ => true

/-- Embeds the free constructor function ok of core.ts. -/
def ok {T E : Type} (value : T) : Result T E := Result.Ok value

/-- Embeds the free constructor function err of core.ts. -/
def err {T E : Type} (error : E) : Result T E := Result.Err error

/-- Embeds the free type guard isOk of core.ts, which reads result.ok. -/
def isOk {T E : Type} (result : Result T E) : Bool := result.ok

/-- Embeds the free type guard isErr of core.ts, which reads result.err. -/
def isErr {T E : Type} (result : Result T E) : Bool := result.err

/-- Embeds tryCatch of utility.ts.  The single synchronous invocation of
the throwing callback fn is modelled as a thunk into Except C T, where C
is the type of the caught value (unknown in the source).  The argument
asE models the cast `error as E` taken when no mapError is supplied; that
cast is the identity at runtime, so it is instantiated with id when C and
E coincide. -/
def tryCatch {T C E : Type} (fn : Unit → Except C T) (mapError : Option (C → E))
    (asE : C → E) : Result T E :=
  match fn () with
  | Except.ok v => ok v
  | Except.error e =>
    err (match mapError with
      | some m => m e
      | none => asE e)

/-- Embeds the loop body of the function all of utility.ts: values is the
accumulator array, and each element is returned as err(result.error) if it
isErr, otherwise its value is pushed. -/
def allGo {T E : Type} (values : List T) : List (Result T E) → Result (List T) E
  | [] => ok values
  | result :: rest =>
    match result with
    | .Err e => err e
    | .Ok v => allGo (values ++ [v]) rest

/-- Embeds the function all of utility.ts, starting from an empty values
array. -/
def all {T E : Type} (results : List (Result T E)) : Result (List T) E :=
  allGo [] results

/-- Embeds the record { oks, errs } returned by partition in utility.ts. -/
structure Partitioned (T E : Type) where
  oks : List T
  errs : List E
deriving DecidableEq

/-- Embeds the loop body of partition in utility.ts: each element's value
is pushed onto oks if it isOk, otherwise its error is pushed onto errs. -/
def partitionGo {T E : Type} (oks : List T) (errs : List E) :
    List (Result T E) → Partitioned T E
  | [] => ⟨oks, errs⟩
  | result :: rest =>
    match result with
    | .Ok v => partitionGo (oks ++ [v]) errs rest
    | .Err e => partitionGo oks (errs ++ [e]) rest

/-- Embeds the function partition of utility.ts, starting from two empty
arrays. -/
def partition {T E : Type} (results : List (Result T E)) : Partitioned T E :=
  partitionGo [] [] results

/-- Formalises the words of the spec for partitionAll: the ordered
sequence of all Ok payloads of the input, in their relative input order. -/
def okPayloads {T E : Type} (results : List (Result T E)) : List T :=
  results.filterMap fun r =>
    match r with
    | .Ok v => some v
    | .Err _ => none

/-- Formalises the words of the spec for partitionAll: the ordered
sequence of all Err payloads of the input, in their relative input order. -/
def errPayloads {T E : Type} (results : List (Result T E)) : List E :=
  results.filterMap fun r =>
    match r with
    | .Ok _ => none
    | .Err e => some e

/-! Helper lemmas about the accumulator loops. -/

theorem allGo_all_ok {T E : Type} (vs : List T) :
    ∀ acc : List T, allGo (E := E) acc (vs.map Result.Ok) = ok (acc ++ vs) := by
  induction vs with
  | nil => intro acc; simp [allGo]
  | cons v vs ih =>
    intro acc
    simp only [List.map_cons, allGo]
    rw [ih (acc ++ [v])]
    simp

theorem allGo_first_err {T E : Type} (vs : List T) (e : E) (rest : List (Result T E)) :
    ∀ acc : List T, allGo acc (vs.map Result.Ok ++ Result.Err e :: rest) = err e := by
  induction vs with
  | nil => intro acc; simp [allGo]
  | cons v vs ih =>
    intro acc
    simp only [List.map_cons, List.cons_append, allGo]
    exact ih (acc ++ [v])

theorem partitionGo_spec {T E : Type} (rs : List (Result T E)) :
    ∀ (oks : List T) (errs : List E),
      partitionGo oks errs rs = ⟨oks ++ okPayloads rs, errs ++ errPayloads rs⟩ := by
  induction rs with
  | nil => intro oks errs; simp [partitionGo, okPayloads, errPayloads]
  | cons r rest ih =>
    intro oks errs
    cases r with
    | Ok v =>
      simp only [partitionGo]
      rw [ih (oks ++ [v]) errs]
      simp [okPayloads, errPayloads, List.filterMap_cons]
    | Err e =>
      simp only [partitionGo]
      rw [ih oks (errs ++ [e])]
      simp [okPayloads, errPayloads, List.filterMap_cons]

/-- Claim C1: for every finite ordered list of Results, all applied to a
list of only Ok elements returns Ok of the unwrapped values in original
order; all applied to a list whose first Err (after a prefix of Ok
elements) holds e returns Err e regardless of the later elements
(first-error-wins); and all of the empty list returns Ok of the empty
list. -/
theorem all_combineAll_spec {T E : Type} :
    (∀ vs : List T, all (vs.map Result.Ok : List (Result T E)) = ok vs)
    ∧ (∀ (vs : List T) (e : E) (rest : List (Result T E)),
        all (vs.map Result.Ok ++ Result.Err e :: rest) = err e)
    ∧ all ([] : List (Result T E)) = ok ([] : List T) := by
  refine ⟨fun vs => ?_, fun vs e rest => ?_, rfl⟩
  · rw [all, allGo_all_ok]; simp
  · rw [all, allGo_first_err]

/-- Claim C2: Ok(v).andThen(f) invokes f on v and returns its Result
directly with no extra nesting, and Err(e).andThen(f) equals Err(e) with
f never invoked (the outcome does not depend on f at all). -/
theorem andThen_spec {T U E : Type} :
    (∀ (v : T) (f : T → Result U E), (ok v : Result T E).andThen f = f v)
    ∧ (∀ (e : E) (f : T → Result U E), (err e : Result T E).andThen f = err e)
    ∧ (∀ (e : E) (f g : T → Result U E),
        (err e : Result T E).andThen f = (err e : Result T E).andThen g) :=
  ⟨fun _ _ => rfl, fun _ _ => rfl, fun _ _ _ => rfl⟩

/-- Claim C3: partition buckets every element of the input by variant in a
single pass, producing the list of all Ok payloads and the list of all Err
payloads, each in the relative order of the input, and the empty list
yields two empty lists. -/
theorem partition_spec {T E : Type} :
    (∀ rs : List (Result T E), partition rs = ⟨okPayloads rs, errPayloads rs⟩)
    ∧ partition ([] : List (Result T E)) = ⟨[], []⟩ := by
  refine ⟨fun rs => ?_, rfl⟩
  rw [partition, partitionGo_spec]
  simp

/-- Claim C4: Ok(v).unwrap() returns exactly v, and Err(e).unwrap() throws
rather than returning, with a message carrying the stringified error
payload after the prefix written in core.ts. -/
theorem unwrap_spec {T E : Type} :
    (∀ (toStr : E → String) (v : T),
        (ok v : Result T E).unwrap toStr = Except.ok v)
    ∧ (∀ (toStr : E → String) (e : E),
        (err e : Result T E).unwrap toStr
          = Except.error ("Called unwrap on Err: " ++ toStr e)) :=
  ⟨fun _ _ => rfl, fun _ _ => rfl⟩

/-- Claim C5 counterexample: the claim names the thrown message as
"called unwrapErr on a success value", but Ok(0).unwrapErr() throws with
message "Called unwrapErr on Ok", which is a different string. -/
theorem unwrapErr_message_counterexample :
    (ok 0 : Result Nat Nat).unwrapErr = Except.error "Called unwrapErr on Ok"
    ∧ "Called unwrapErr on Ok" ≠ "called unwrapErr on a success value" :=
  ⟨rfl, by decide⟩

/-- Claim C5 amended: Err(e).unwrapErr() returns exactly e, and
Ok(v).unwrapErr() throws a fatal error whose message is
"Called unwrapErr on Ok". -/
theorem unwrapErr_spec {T E : Type} :
    (∀ e : E, (err e : Result T E).unwrapErr = Except.ok e)
    ∧ (∀ v : T,
        (ok v : Result T E).unwrapErr = Except.error "Called unwrapErr on Ok") :=
  ⟨fun _ => rfl, fun _ => rfl⟩

/-- Claim C6: tryCatch returns Ok(r) when the invoked function returns r
normally; when the function throws c it returns Err(mapError(c)) if a
mapper is supplied and Err(c) (the raw caught value, the cast being the
identity) otherwise. -/
theorem tryCatch_spec {T C E : Type} :
    (∀ (v : T) (mapError : Option (C → E)) (asE : C → E),
        tryCatch (fun _ => Except.ok v) mapError asE = ok v)
    ∧ (∀ (c : C) (m : C → E) (asE : C → E),
        tryCatch (T := T) (fun _ => Except.error c) (some m) asE = err (m c))
    ∧ (∀ c : C,
        tryCatch (T := T) (fun _ => Except.error c) none id = err c) :=
  ⟨fun _ _ _ => rfl, fun _ _ _ => rfl, fun _ => rfl⟩

/-- Claim C7: Ok(v).mapErr(f) equals Ok(v) with f never invoked (the
outcome does not depend on f), and Err(e).map(f) equals Err(e) with f
never invoked. -/
theorem map_mapErr_duality {T U E F : Type} :
    (∀ (v : T) (f : E → F), (ok v : Result T E).mapErr f = ok v)
    ∧ (∀ (v : T) (f g : E → F),
        (ok v : Result T E).mapErr f = (ok v : Result T E).mapErr g)
    ∧ (∀ (e : E) (f : T → U), (err e : Result T E).map f = err e)
    ∧ (∀ (e : E) (f g : T → U),
        (err e : Result T E).map f = (err e : Result T E).map g) :=
  ⟨fun _ _ => rfl, fun _ _ _ => rfl, fun _ _ => rfl, fun _ _ _ => rfl⟩

/-- Claim C8: functor composition law, Ok(v).map(f).map(g) equals
Ok(v).map(x => g(f(x))). -/
theorem map_functor_comp {T U V E : Type} :
    ∀ (v : T) (f : T → U) (g : U → V),
      ((ok v : Result T E).map f).map g
        = (ok v : Result T E).map (fun x => g (f x)) :=
  fun _ _ _ => rfl

/-- Claim C9: Ok(v).unwrapOr(d) returns exactly v and Err(e).unwrapOr(d)
returns d unchanged, for any fallback d; unwrapOr is total on both
variants. -/
theorem unwrapOr_spec {T E : Type} :
    (∀ (v : T) (d : T), (ok v : Result T E).unwrapOr d = v)
    ∧ (∀ (e : E) (d : T), (err e : Result T E).unwrapOr d = d) :=
  ⟨fun _ _ => rfl, fun _ _ => rfl⟩

/-- Claim C10: the fields ok and err are mutually exclusive and exhaustive
on every Result built by ok or err, the free guards isOk and isErr return
the ok and err fields, and they agree with the isOk and isErr methods. -/
theorem variant_flags_spec {T E : Type} :
    (∀ v : T, (ok v : Result T E).ok = true ∧ (ok v : Result T E).err = false)
    ∧ (∀ e : E, (err e : Result T E).ok = false ∧ (err e : Result T E).err = true)
    ∧ (∀ r : Result T E,
        isOk r = r.ok ∧ isErr r = r.err
          ∧ isOk r = r.isOk ∧ isErr r = r.isErr ∧ isOk r = !(isErr r)) := by
  refine ⟨fun v => ⟨rfl, rfl⟩, fun e => ⟨rfl, rfl⟩, fun r => ?_⟩
  cases r <;> exact ⟨rfl, rfl, rfl, rfl, rfl⟩
